import Mathlib

/-!
Verification of the audiobookshelf-discord-rpc client (JavaScript sources)
against its natural-language specification.

The program polls an Audiobookshelf server for listening sessions, tracks a
small amount of mutable state (`lastKnownTime` / `isPaused` in `src/index.js`;
`lastCurrentTime` / `lastUpdatedAt` in the older variant `src/unnamed/part_000`),
and sets or clears a Discord rich-presence activity accordingly.

We shallowly embed the two poll-cycle bodies as pure step functions on explicit
state, with the network outcomes (transport error, parse error, parsed data) as
explicit inputs, and the presence-channel calls issued during one cycle as an
output list.  Numbers coming from the server (`currentTime`, `duration`,
`startedAt`, `updatedAt`) are modelled as rationals, so that JavaScript's
`Math.floor` and `%` on non-negative numbers are `Int.floor` and the
floor-based remainder.
-/

/-- JavaScript remainder `a % n` for the non-negative operands the program
uses: `a - n * Math.floor(a / n)`. -/
def jsMod (a n : ℚ) : ℚ := a - n * ⌊a / n⌋

/-- JavaScript `String.prototype.padStart(2, '0')`: pad on the left with `'0'`
up to length 2; a string already of length ≥ 2 is returned unchanged. -/
def padStart2 (t : String) : String :=
  if t.length ≥ 2 then t else if t.length = 1 then "0" ++ t else "00"

/-- Hours field of `formatTime`: `Math.floor(seconds / 3600)`. -/
def hoursVal (seconds : ℚ) : ℤ := ⌊seconds / 3600⌋

/-- Minutes field of `formatTime`: `Math.floor((seconds % 3600) / 60)`. -/
def minutesVal (seconds : ℚ) : ℤ := ⌊jsMod seconds 3600 / 60⌋

/-- Seconds field of `formatTime`: `Math.floor(seconds % 60)`. -/
def secondsVal (seconds : ℚ) : ℤ := ⌊jsMod seconds 60⌋

/-- `formatTime` from `src/index.js` lines 121–126 (identical in
`src/unnamed/part_000` lines 122–127):

```js
function formatTime(seconds) {
  const hours = Math.floor(seconds / 3600);
  const minutes = Math.floor((seconds % 3600) / 60);
  const remainingSeconds = Math.floor(seconds % 60);
  return hh:mm:ss with each field padStart(2, '0');
}
``` -/
def formatTime (seconds : ℚ) : String :=
  padStart2 (toString (hoursVal seconds)) ++ ":" ++
    padStart2 (toString (minutesVal seconds)) ++ ":" ++
      padStart2 (toString (secondsVal seconds))

/-- The spec's formula for the time formatter, written out independently from
§4.4: `format(seconds) = floor(seconds/3600) : floor((seconds%3600)/60) :
floor(seconds%60)`, each field zero-padded to a minimum width of two. -/
def format_spec (seconds : ℚ) : String :=
  padStart2 (toString (⌊seconds / 3600⌋ : ℤ)) ++ ":" ++
    padStart2 (toString (⌊(seconds - 3600 * ⌊seconds / 3600⌋) / 60⌋ : ℤ)) ++ ":" ++
      padStart2 (toString (⌊seconds - 60 * ⌊seconds / 60⌋⌋ : ℤ))

section IndexJs

/-- One session record as consumed by `src/index.js` (fields read at lines
75–78 of the response's `sessions[0]`). -/
structure Session where
  displayTitle : String
  author : String
  currentTime : ℚ
  duration : ℚ
deriving DecidableEq, Repr

/-- The mutable module-level state of `src/index.js`: `lastKnownTime`
(initially `null`) and `isPaused` (initially `false`). -/
structure TrackerState where
  lastKnownTime : Option ℚ
  isPaused : Bool
deriving DecidableEq, Repr

/-- The state at process start: `lastKnownTime = null`, `isPaused = false`. -/
def initialState : TrackerState := ⟨none, false⟩

/-- Outcome of the listening-sessions request of one poll, as seen by the
`res.on('end')` handler.  `parseErr` covers every abnormal body: `JSON.parse`
throwing, a missing `sessions` field, or an empty `sessions` array (in which
case `sessions[0]` is `undefined` and reading `.displayTitle` throws); all of
them land in the same `catch` at line 108. -/
inductive PollResult where
  | transportErr
  | parseErr
  | session (s : Session)
deriving DecidableEq, Repr

/-- Outcome of the cover-search request issued by `getCoverPath`.  `parseErr`
covers `JSON.parse` throwing and a body whose `results` field is absent or not
indexable (reading `[0]` throws); `results rs` is a successfully parsed
`results` array. -/
inductive CoverFetchResult where
  | transportErr
  | parseErr
  | results (rs : List String)
deriving DecidableEq, Repr

/-- Errors with which `getCoverPath`'s promise rejects. -/
inductive CoverError where
  | transport
  | parse
deriving DecidableEq, Repr

/-- `getCoverPath` from `src/index.js` lines 12–51: on a transport error the
promise rejects; in the `end` handler, `JSON.parse(data)` and
`response.results[0]` are evaluated inside `try` — an exception rejects, and
otherwise the promise resolves with `response.results[0]`, which is
`undefined` (here `none`) when the array is empty. -/
def getCoverPath : CoverFetchResult → Except CoverError (Option String)
  | .transportErr => .error .transport
  | .parseErr => .error .parse
  | .results rs => .ok rs.head?

/-- One call pushed to the presence channel. -/
inductive PresenceCall where
  | clear
  | update (details state : String) (largeImageKey : Option String)
      (largeImageText : String)
deriving DecidableEq, Repr

/-- The `rpc.setActivity` payload built at lines 97–103 once the cover promise
has resolved with `coverUrl` (the `instance` flag is the constant `false` and
carries no information). -/
def updateCall (s : Session) (coverUrl : Option String) : PresenceCall :=
  .update ("Listening to " ++ s.displayTitle)
    (formatTime s.currentTime ++ " / " ++ formatTime s.duration)
    coverUrl s.displayTitle

/-- The presence calls produced by the update branch at lines 95–107:
`getCoverPath(...).then(coverUrl => rpc.setActivity({...})).catch(log)`.
If the cover promise resolves, one `setActivity` call is made with the
resolved value as `largeImageKey`; if it rejects, the `catch` only logs and
no presence call is made. -/
def updateCalls (s : Session) (cover : CoverFetchResult) : List PresenceCall :=
  match getCoverPath cover with
  | .error _ => []
  | .ok coverUrl => [updateCall s coverUrl]

/-- The body of `setActivity` in `src/index.js` lines 55–119, as a pure step:
given the state before the poll, the sampler outcome, and the cover-fetch
outcome (consulted only when the update branch runs), it returns the state
after the poll and the list of presence-channel calls issued during the
cycle, in order.

* transport error (line 114) or any exception in the `end` handler
  (line 108): only logging — state untouched, no calls;
* `lastKnownTime === null` (line 80): record the time, fall through to the
  update branch (with `isPaused` as it was);
* `currentTime === lastKnownTime` (line 82): if not already paused, clear the
  activity and set `isPaused`; then `return` (line 88) — `lastKnownTime` is
  not reassigned;
* otherwise (line 89): `isPaused = false`, `lastKnownTime = currentTime`,
  and the update branch runs. -/
def setActivityStep (st : TrackerState) (poll : PollResult)
    (cover : CoverFetchResult) : TrackerState × List PresenceCall :=
  match poll with
  | .transportErr => (st, [])
  | .parseErr => (st, [])
  | .session s =>
    match st.lastKnownTime with
    | none =>
      if st.isPaused then (⟨some s.currentTime, st.isPaused⟩, [])
      else (⟨some s.currentTime, st.isPaused⟩, updateCalls s cover)
    | some t =>
      if s.currentTime = t then
        if st.isPaused then (st, [])
        else (⟨st.lastKnownTime, true⟩, [.clear])
      else (⟨some s.currentTime, false⟩, updateCalls s cover)

/-- Run a sequence of poll cycles, accumulating the presence calls of every
cycle in order. -/
def runPolls (st : TrackerState) :
    List (PollResult × CoverFetchResult) → TrackerState × List PresenceCall
  | [] => (st, [])
  | (p, c) :: rest =>
    let r1 := setActivityStep st p c
    let r2 := runPolls r1.1 rest
    (r2.1, r1.2 ++ r2.2)

end IndexJs

section Part000

/-- One session record as consumed by `src/unnamed/part_000` (fields read at
lines 77–78 and 85–88). -/
structure SessionV0 where
  displayTitle : String
  author : String
  currentTime : ℚ
  duration : ℚ
  startedAt : ℚ
  updatedAt : ℚ
deriving DecidableEq, Repr

/-- The mutable module-level state of `src/unnamed/part_000`:
`lastCurrentTime` and `lastUpdatedAt`, both initially `0`. -/
structure TrackerStateV0 where
  lastCurrentTime : ℚ
  lastUpdatedAt : ℚ
deriving DecidableEq, Repr

/-- The state at process start in the older variant. -/
def initialStateV0 : TrackerStateV0 := ⟨0, 0⟩

/-- Sampler outcome for the older variant.  A parsed body carries the whole
`sessions` array (page size 10); `parseErr` covers `JSON.parse` throwing and a
body without a filterable `sessions` field.  An element of the array is either
a well-formed session record (`some`) or a non-object such as `null` (`none`),
whose first property read (`session.startedAt`, line 77) throws inside the
filter callback — after the cursor has already been advanced for the elements
examined earlier. -/
inductive PollResultV0 where
  | transportErr
  | parseErr
  | sessions (ss : List (Option SessionV0))
deriving DecidableEq, Repr

/-- The `sessions.filter` of `src/unnamed/part_000` lines 76–82, with the
mutation of the module-level `lastUpdatedAt` made explicit: the predicate
reads the cursor, advances it to the session's `updatedAt`, and keeps the
session when `updatedAt - startedAt > updatedAt - (cursor as read)`.
JavaScript's `Array.prototype.filter` applies the predicate left to right, so
each session after the first is compared against the *previous session's*
`updatedAt`, not the pre-poll cursor.  Returns the final cursor and the kept
sessions. -/
def filterActive (cursor : ℚ) : List SessionV0 → ℚ × List SessionV0
  | [] => (cursor, [])
  | s :: rest =>
    let elapsedTime := s.updatedAt - cursor
    let r := filterActive s.updatedAt rest
    if s.updatedAt - s.startedAt > elapsedTime then (r.1, s :: r.2)
    else (r.1, r.2)

/-- The same filter run over the raw `sessions` array, whose elements may be
malformed.  For a `none` element the callback throws on its first property
read, before touching the cursor; the exception propagates out of
`Array.prototype.filter`, so the whole filter aborts — but the cursor keeps
the advances already made for the elements examined before the throw.
`.error c` reports that aborted-with-cursor-`c` outcome; `.ok` is the normal
completion, agreeing with `filterActive` (see `filterActiveE_map_some`). -/
def filterActiveE (cursor : ℚ) :
    List (Option SessionV0) → Except ℚ (ℚ × List SessionV0)
  | [] => .ok (cursor, [])
  | none :: _ => .error cursor
  | some s :: rest =>
    let elapsedTime := s.updatedAt - cursor
    match filterActiveE s.updatedAt rest with
    | .error c => .error c
    | .ok r =>
      if s.updatedAt - s.startedAt > elapsedTime then .ok (r.1, s :: r.2)
      else .ok (r.1, r.2)

/-- The spec's §4.1 "clearer formulation" of the active-session filter, as the
claim states it: every session of the poll is compared against the single
cursor value recorded before the poll began. -/
def filterActive_spec (cursor : ℚ) (ss : List SessionV0) : List SessionV0 :=
  ss.filter fun s => s.updatedAt - s.startedAt > s.updatedAt - cursor

/-- The rolling-baseline formulation that the code actually implements: the
first session is compared against the pre-poll cursor, and every later session
against its predecessor's `updatedAt`. -/
def filterActive_rolling (cursor : ℚ) : List SessionV0 → List SessionV0
  | [] => []
  | s :: rest =>
    (if s.updatedAt - s.startedAt > s.updatedAt - cursor then [s] else []) ++
      filterActive_rolling s.updatedAt rest

/-- The `setActivity` payload of the older variant, lines 93–99. -/
def updateCallV0 (s : SessionV0) (coverUrl : Option String) : PresenceCall :=
  .update ("Listening to " ++ s.displayTitle)
    (formatTime s.currentTime ++ " / " ++ formatTime s.duration)
    coverUrl s.displayTitle

/-- Presence calls of the older variant's update branch, lines 92–102: same
`then`/`catch` shape as `src/index.js`. -/
def updateCallsV0 (s : SessionV0) (cover : CoverFetchResult) :
    List PresenceCall :=
  match getCoverPath cover with
  | .error _ => []
  | .ok coverUrl => [updateCallV0 s coverUrl]

/-- The body of `setActivity` in `src/unnamed/part_000` lines 56–119 as a pure
step.

* transport error (line 114) or an exception before the filter starts
  (`JSON.parse` throwing, no filterable `sessions` field): state untouched,
  no calls;
* a malformed element inside the `sessions` array: the filter callback throws
  mid-list into the same `catch` (line 108), which only logs — no presence
  call, `lastCurrentTime` untouched, but `lastUpdatedAt` keeps the advances
  made for the elements examined before the throw;
* filter completes, no active session (line 105): `rpc.clearActivity()`
  unconditionally, `lastCurrentTime` untouched;
* active session whose `currentTime` equals `lastCurrentTime` (line 89):
  `rpc.clearActivity()`, then `lastCurrentTime = session.currentTime`
  (line 104);
* otherwise: the cover/update branch, then `lastCurrentTime` updated. -/
def setActivityStepV0 (st : TrackerStateV0) (poll : PollResultV0)
    (cover : CoverFetchResult) : TrackerStateV0 × List PresenceCall :=
  match poll with
  | .transportErr => (st, [])
  | .parseErr => (st, [])
  | .sessions ss =>
    match filterActiveE st.lastUpdatedAt ss with
    | .error c => (⟨st.lastCurrentTime, c⟩, [])
    | .ok r =>
      match r.2 with
      | [] => (⟨st.lastCurrentTime, r.1⟩, [.clear])
      | s :: _ =>
        if s.currentTime = st.lastCurrentTime then
          (⟨s.currentTime, r.1⟩, [.clear])
        else (⟨s.currentTime, r.1⟩, updateCallsV0 s cover)

end Part000

/-! ### Helper lemmas about the time formatter -/

theorem padStart2_length_ge (t : String) : 2 ≤ (padStart2 t).length := by
  rw [padStart2]
  have h0 : ("0" : String).length = 1 := rfl
  split_ifs with h1 h2
  · exact h1
  · rw [String.length_append, h0, h2]
  · rfl

theorem padStart2_length_eq (t : String) (h : t.length ≤ 2) :
    (padStart2 t).length = 2 := by
  rw [padStart2]
  have h0 : ("0" : String).length = 1 := rfl
  split_ifs with h1 h2
  · omega
  · rw [String.length_append, h0, h2]
  · rfl

theorem jsMod_eq_fract (a n : ℚ) (hn : n ≠ 0) :
    jsMod a n = n * Int.fract (a / n) := by
  rw [jsMod, Int.fract, mul_sub, mul_div_cancel₀ a hn]

theorem jsMod_nonneg (a n : ℚ) (hn : 0 < n) : 0 ≤ jsMod a n := by
  rw [jsMod_eq_fract a n hn.ne']
  exact mul_nonneg hn.le (Int.fract_nonneg _)

theorem jsMod_lt (a n : ℚ) (hn : 0 < n) : jsMod a n < n := by
  rw [jsMod_eq_fract a n hn.ne']
  calc n * Int.fract (a / n) < n * 1 :=
        (mul_lt_mul_left hn).2 (Int.fract_lt_one _)
    _ = n := mul_one n

theorem int_toString_length_le (n : ℤ) (h0 : 0 ≤ n) (h : n ≤ 59) :
    (toString n).length ≤ 2 := by
  lift n to ℕ using h0
  have h' : n ≤ 59 := by exact_mod_cast h
  have hrepr : toString (n : ℤ) = toString n := rfl
  rw [hrepr]
  have hall : ∀ k : Fin 60, (toString k.val).length ≤ 2 := by decide
  exact hall ⟨n, by omega⟩

theorem minutesVal_nonneg (s : ℚ) : 0 ≤ minutesVal s :=
  Int.floor_nonneg.2 (div_nonneg (jsMod_nonneg s 3600 (by norm_num)) (by norm_num))

theorem minutesVal_le (s : ℚ) : minutesVal s ≤ 59 := by
  have h := jsMod_lt s 3600 (by norm_num)
  have hx : jsMod s 3600 / 60 < ((60 : ℤ) : ℚ) := by push_cast; linarith
  have := Int.floor_lt.2 hx
  rw [minutesVal]
  omega

theorem secondsVal_nonneg (s : ℚ) : 0 ≤ secondsVal s :=
  Int.floor_nonneg.2 (jsMod_nonneg s 60 (by norm_num))

theorem secondsVal_le (s : ℚ) : secondsVal s ≤ 59 := by
  have h := jsMod_lt s 60 (by norm_num)
  have hx : jsMod s 60 < ((60 : ℤ) : ℚ) := by push_cast; linarith
  have := Int.floor_lt.2 hx
  rw [secondsVal]
  omega

theorem minutesVal_split (s : ℚ) :
    minutesVal s = ⌊s / 60⌋ - 60 * hoursVal s := by
  have hk : jsMod s 3600 / 60 = s / 60 - ((60 * ⌊s / 3600⌋ : ℤ) : ℚ) := by
    rw [jsMod]
    push_cast
    ring
  rw [minutesVal, hk, Int.floor_sub_int, hoursVal]

theorem fields_le_input (s : ℚ) :
    ((3600 * hoursVal s + 60 * minutesVal s + secondsVal s : ℤ) : ℚ) ≤ s := by
  have hm := minutesVal_split s
  have hc : (secondsVal s : ℚ) ≤ s - 60 * (⌊s / 60⌋ : ℚ) := by
    have h := Int.floor_le (jsMod s 60)
    rw [jsMod] at h
    rw [secondsVal, jsMod]
    exact h
  have h60 : ((⌊s / 60⌋ : ℤ) : ℚ) = (⌊s / 60⌋ : ℚ) := rfl
  rw [hm]
  push_cast
  rw [hoursVal]
  linarith

/-! ### Claim theorems about the time formatter -/

/-- C7: the time formatter is the pure function
`format(seconds) = floor(seconds/3600) : floor((seconds%3600)/60) :
floor(seconds%60)` with each field zero-padded to a minimum width of two
digits; in particular `format(0) = "00:00:00"`, `format(3661) = "01:01:01"`,
and `format(36000) = "10:00:00"`. -/
theorem C7_formatTime_is_spec :
    (∀ s : ℚ, formatTime s = format_spec s) ∧
    formatTime 0 = "00:00:00" ∧
    formatTime 3661 = "01:01:01" ∧
    formatTime 36000 = "10:00:00" := by
  refine ⟨fun s => rfl, ?_, ?_, ?_⟩
  · have h1 : hoursVal 0 = 0 := by norm_num [hoursVal]
    have h2 : minutesVal 0 = 0 := by norm_num [minutesVal, jsMod]
    have h3 : secondsVal 0 = 0 := by norm_num [secondsVal, jsMod]
    rw [formatTime, h1, h2, h3]
    rfl
  · have h1 : hoursVal 3661 = 1 := by norm_num [hoursVal]
    have h2 : minutesVal 3661 = 1 := by norm_num [minutesVal, jsMod]
    have h3 : secondsVal 3661 = 1 := by norm_num [secondsVal, jsMod]
    rw [formatTime, h1, h2, h3]
    rfl
  · have h1 : hoursVal 36000 = 10 := by norm_num [hoursVal]
    have h2 : minutesVal 36000 = 0 := by norm_num [minutesVal, jsMod]
    have h3 : secondsVal 36000 = 0 := by norm_num [secondsVal, jsMod]
    rw [formatTime, h1, h2, h3]
    rfl

/-- C10: for every non-negative input, `formatTime` renders minutes and
seconds fields that are in 0–59 and exactly two characters wide, an hours
field at least two characters wide, and each field is floored, so the
formatted position `3600*h + 60*m + sec` never exceeds the true position. -/
theorem C10_formatTime_field_bounds (s : ℚ) (hs : 0 ≤ s) :
    formatTime s =
      padStart2 (toString (hoursVal s)) ++ ":" ++
        padStart2 (toString (minutesVal s)) ++ ":" ++
          padStart2 (toString (secondsVal s)) ∧
    0 ≤ hoursVal s ∧
    0 ≤ minutesVal s ∧ minutesVal s ≤ 59 ∧
    0 ≤ secondsVal s ∧ secondsVal s ≤ 59 ∧
    (padStart2 (toString (minutesVal s))).length = 2 ∧
    (padStart2 (toString (secondsVal s))).length = 2 ∧
    2 ≤ (padStart2 (toString (hoursVal s))).length ∧
    ((3600 * hoursVal s + 60 * minutesVal s + secondsVal s : ℤ) : ℚ) ≤ s := by
  refine ⟨rfl, ?_, minutesVal_nonneg s, minutesVal_le s, secondsVal_nonneg s,
    secondsVal_le s, ?_, ?_, padStart2_length_ge _, fields_le_input s⟩
  · exact Int.floor_nonneg.2 (div_nonneg hs (by norm_num))
  · exact padStart2_length_eq _
      (int_toString_length_le _ (minutesVal_nonneg s) (minutesVal_le s))
  · exact padStart2_length_eq _
      (int_toString_length_le _ (secondsVal_nonneg s) (secondsVal_le s))

/-- Witness for C10 at the concrete input `3661`. -/
theorem C10_formatTime_field_bounds_witness :
    0 ≤ (3661 : ℚ) ∧
    (formatTime 3661 =
      padStart2 (toString (hoursVal 3661)) ++ ":" ++
        padStart2 (toString (minutesVal 3661)) ++ ":" ++
          padStart2 (toString (secondsVal 3661)) ∧
    0 ≤ hoursVal 3661 ∧
    0 ≤ minutesVal 3661 ∧ minutesVal 3661 ≤ 59 ∧
    0 ≤ secondsVal 3661 ∧ secondsVal 3661 ≤ 59 ∧
    (padStart2 (toString (minutesVal 3661))).length = 2 ∧
    (padStart2 (toString (secondsVal 3661))).length = 2 ∧
    2 ≤ (padStart2 (toString (hoursVal 3661))).length ∧
    ((3600 * hoursVal 3661 + 60 * minutesVal 3661 + secondsVal 3661 : ℤ) : ℚ)
      ≤ 3661) :=
  ⟨by norm_num, C10_formatTime_field_bounds 3661 (by norm_num)⟩

/-! ### Helper lemmas about the poll-cycle step functions -/

theorem updateCalls_length_le (s : Session) (cov : CoverFetchResult) :
    (updateCalls s cov).length ≤ 1 := by
  cases cov <;> simp [updateCalls, getCoverPath]

theorem updateCallsV0_length_le (s : SessionV0) (cov : CoverFetchResult) :
    (updateCallsV0 s cov).length ≤ 1 := by
  cases cov <;> simp [updateCallsV0, getCoverPath]

theorem filterActiveE_map_some (c : ℚ) (ss : List SessionV0) :
    filterActiveE c (ss.map some) = .ok (filterActive c ss) := by
  induction ss generalizing c with
  | nil => rfl
  | cons s rest ih =>
    by_cases h : s.updatedAt - s.startedAt > s.updatedAt - c <;>
      simp [filterActiveE, filterActive, ih s.updatedAt, h]

/-- C5 counterexample: the claim says `getCoverPath` propagates an error when
the server returns zero results, but on a well-formed response whose `results`
array is empty the promise resolves successfully with `undefined`
(`results[0]` of an empty array does not throw). -/
theorem C5_counterexample : getCoverPath (.results []) = .ok none := rfl

/-- C5 (amended): `getCoverPath` rejects on a transport error or a malformed
response, resolves with the first element when the results collection is
non-empty, and resolves successfully with a missing value (`undefined`) when
the results collection is empty. -/
theorem C5_getCoverPath_amended (x : String) (xs : List String) :
    getCoverPath .transportErr = .error .transport ∧
    getCoverPath .parseErr = .error .parse ∧
    getCoverPath (.results (x :: xs)) = .ok (some x) ∧
    getCoverPath (.results []) = .ok none :=
  ⟨rfl, rfl, rfl, rfl⟩

/-- C1 counterexample: the claim says a resolver failure never suppresses the
presence update, but on a `Started` transition (fresh state, one session) with
a cover-resolver transport error the cycle issues no presence call at all:
the rejection lands in the `catch` that only logs, and `rpc.setActivity` is
never invoked. -/
theorem C1_counterexample :
    (setActivityStep initialState (.session ⟨"Dune", "Herbert", 100, 1000⟩)
      .transportErr).2 = [] := rfl

/-- C1 (amended): on a `Started` or `Continuing` transition, if the cover
promise resolves — including the zero-results case, where the resolved value
is missing — one set-presence call is issued with that value as the art field;
if the cover promise rejects (transport error or malformed response), no
set-presence call is issued that cycle, although the tracker state is still
updated. -/
theorem C1_update_suppressed_on_rejection (s : Session) (t : ℚ)
    (rs : List String) (h : s.currentTime ≠ t) :
    (setActivityStep ⟨none, false⟩ (.session s) (.results rs)).2 =
      [updateCall s rs.head?] ∧
    (setActivityStep ⟨some t, false⟩ (.session s) (.results rs)).2 =
      [updateCall s rs.head?] ∧
    (setActivityStep ⟨none, false⟩ (.session s) .transportErr).2 = [] ∧
    (setActivityStep ⟨some t, false⟩ (.session s) .transportErr).2 = [] ∧
    (setActivityStep ⟨none, false⟩ (.session s) .parseErr).2 = [] ∧
    (setActivityStep ⟨some t, false⟩ (.session s) .parseErr).2 = [] ∧
    (setActivityStep ⟨some t, false⟩ (.session s) .transportErr).1 =
      ⟨some s.currentTime, false⟩ := by
  refine ⟨?_, ?_, ?_, ?_, ?_, ?_, ?_⟩ <;>
    simp [setActivityStep, updateCalls, getCoverPath, h]

/-- Witness for the amended C1 at a concrete session and prior time. -/
theorem C1_update_suppressed_on_rejection_witness :
    (⟨"Dune", "Herbert", 100, 1000⟩ : Session).currentTime ≠ (50 : ℚ) ∧
    ((setActivityStep ⟨none, false⟩
        (.session ⟨"Dune", "Herbert", 100, 1000⟩) (.results [])).2 =
      [updateCall ⟨"Dune", "Herbert", 100, 1000⟩ (List.head? [])] ∧
    (setActivityStep ⟨some 50, false⟩
        (.session ⟨"Dune", "Herbert", 100, 1000⟩) (.results [])).2 =
      [updateCall ⟨"Dune", "Herbert", 100, 1000⟩ (List.head? [])] ∧
    (setActivityStep ⟨none, false⟩
        (.session ⟨"Dune", "Herbert", 100, 1000⟩) .transportErr).2 = [] ∧
    (setActivityStep ⟨some 50, false⟩
        (.session ⟨"Dune", "Herbert", 100, 1000⟩) .transportErr).2 = [] ∧
    (setActivityStep ⟨none, false⟩
        (.session ⟨"Dune", "Herbert", 100, 1000⟩) .parseErr).2 = [] ∧
    (setActivityStep ⟨some 50, false⟩
        (.session ⟨"Dune", "Herbert", 100, 1000⟩) .parseErr).2 = [] ∧
    (setActivityStep ⟨some 50, false⟩
        (.session ⟨"Dune", "Herbert", 100, 1000⟩) .transportErr).1 =
      ⟨some (⟨"Dune", "Herbert", 100, 1000⟩ : Session).currentTime, false⟩) :=
  ⟨by decide, C1_update_suppressed_on_rejection
    ⟨"Dune", "Herbert", 100, 1000⟩ 50 [] (by decide)⟩

/-- C4 counterexample: the claim says a poll whose elapsed time equals the
last recorded value but whose book differs is classified `Started` for the new
book, yet after playing "Book A" at position 100, a poll reporting "Book B" at
position 100 issues a clear call (the `Paused` handling) and no update for
"Book B": the code compares only `currentTime` with `lastKnownTime` and never
consults book identity. -/
theorem C4_counterexample :
    runPolls initialState
      [(.session ⟨"Book A", "X", 100, 1000⟩, .results ["cover"]),
       (.session ⟨"Book B", "Y", 100, 2000⟩, .results ["cover"])] =
    (⟨some 100, true⟩,
      [updateCall ⟨"Book A", "X", 100, 1000⟩ (some "cover"), .clear]) := rfl

/-- C4 (amended): the `Paused` classification depends only on the equality of
the session's elapsed time with the last recorded value; book identity is
never consulted, so a different book reporting the same elapsed time is
handled as `Paused` (a clear call when the flag is unset, nothing when it is
already set). -/
theorem C4_paused_ignores_book_identity (a2 b2 : String) (t d2 : ℚ)
    (cov : CoverFetchResult) :
    setActivityStep ⟨some t, false⟩ (.session ⟨a2, b2, t, d2⟩) cov =
      (⟨some t, true⟩, [.clear]) ∧
    setActivityStep ⟨some t, true⟩ (.session ⟨a2, b2, t, d2⟩) cov =
      (⟨some t, true⟩, []) := by
  constructor <;> simp [setActivityStep]

/-- C6 counterexample: the claim says every cycle whose response fails to
parse leaves all tracker fields — the cursor included — exactly as they were,
but in the older variant the cursor is mutated inside the filter callback: a
body whose `sessions` array holds a well-formed record (`updatedAt = 100`)
followed by `null` parses as JSON, advances the cursor from `0` to `100` for
the first element, then throws on the `null` element into the same `catch`,
ending the cycle with the cursor changed (and `lastCurrentTime` untouched,
no presence call). -/
theorem C6_counterexample :
    setActivityStepV0 ⟨5, 0⟩
      (.sessions [some ⟨"A", "a", 1, 2, 0, 100⟩, none]) (.results []) =
      (⟨5, 100⟩, []) ∧
    (⟨5, 100⟩ : TrackerStateV0) ≠ ⟨5, 0⟩ := by
  constructor
  · rfl
  · decide

/-- C6 (amended): a sampler transport error, or a failure before the filter
starts (the body fails `JSON.parse` or has no filterable sessions field),
leaves every tracker field exactly as it was and issues no presence call, in
both program variants; in the older variant, a body that parses but holds a
malformed session element mid-list likewise issues no presence call and
leaves the last recorded elapsed time untouched, but the `lastUpdatedAt`
cursor retains the advances made for the elements examined before the
throw. -/
theorem C6_sampler_failure_amended (st : TrackerState) (st0 : TrackerStateV0)
    (cov : CoverFetchResult) (ss : List (Option SessionV0)) (c : ℚ)
    (h : filterActiveE st0.lastUpdatedAt ss = .error c) :
    setActivityStep st .transportErr cov = (st, []) ∧
    setActivityStep st .parseErr cov = (st, []) ∧
    setActivityStepV0 st0 .transportErr cov = (st0, []) ∧
    setActivityStepV0 st0 .parseErr cov = (st0, []) ∧
    setActivityStepV0 st0 (.sessions ss) cov =
      (⟨st0.lastCurrentTime, c⟩, []) := by
  refine ⟨rfl, rfl, rfl, rfl, ?_⟩
  simp [setActivityStepV0, h]

/-- Witness for the amended C6 at the concrete mid-list-throw input. -/
theorem C6_sampler_failure_amended_witness :
    filterActiveE (⟨5, 0⟩ : TrackerStateV0).lastUpdatedAt
        [some ⟨"A", "a", 1, 2, 0, 100⟩, none] = .error 100 ∧
    (setActivityStep ⟨none, false⟩ .transportErr (.results []) =
        (⟨none, false⟩, []) ∧
      setActivityStep ⟨none, false⟩ .parseErr (.results []) =
        (⟨none, false⟩, []) ∧
      setActivityStepV0 ⟨5, 0⟩ .transportErr (.results []) = (⟨5, 0⟩, []) ∧
      setActivityStepV0 ⟨5, 0⟩ .parseErr (.results []) = (⟨5, 0⟩, []) ∧
      setActivityStepV0 ⟨5, 0⟩
          (.sessions [some ⟨"A", "a", 1, 2, 0, 100⟩, none]) (.results []) =
        (⟨5, 100⟩, [])) :=
  ⟨rfl, C6_sampler_failure_amended ⟨none, false⟩ ⟨5, 0⟩ (.results [])
    [some ⟨"A", "a", 1, 2, 0, 100⟩, none] 100 rfl⟩

/-- C8: every poll cycle applies at most one presence action to the channel —
the list of presence calls issued by one cycle has length at most one, in both
the current program and the older variant; in particular no cycle issues both
a clear call and a set-presence call. -/
theorem C8_at_most_one_presence_call (st : TrackerState)
    (st0 : TrackerStateV0) (poll : PollResult) (poll0 : PollResultV0)
    (cov : CoverFetchResult) :
    (setActivityStep st poll cov).2.length ≤ 1 ∧
    (setActivityStepV0 st0 poll0 cov).2.length ≤ 1 := by
  constructor
  · obtain ⟨lt, ip⟩ := st
    cases poll with
    | transportErr => simp [setActivityStep]
    | parseErr => simp [setActivityStep]
    | session s =>
      cases lt with
      | none => cases ip <;> simp [setActivityStep, updateCalls_length_le]
      | some t =>
        by_cases hct : s.currentTime = t <;> cases ip <;>
          simp [setActivityStep, hct, updateCalls_length_le]
  · obtain ⟨lct, lu⟩ := st0
    cases poll0 with
    | transportErr => simp [setActivityStepV0]
    | parseErr => simp [setActivityStepV0]
    | sessions ss =>
      rw [setActivityStepV0]
      cases hact : filterActiveE lu ss with
      | error c => simp
      | ok r =>
        obtain ⟨c2, acts⟩ := r
        cases acts with
        | nil => simp
        | cons s rest =>
          by_cases hct : s.currentTime = lct <;>
            simp [hct, updateCallsV0_length_le]

/-- C3 counterexample: the claim says every session of one poll is compared
against the single cursor value recorded before the poll began, but with
pre-poll cursor `0` and sessions `(startedAt 0, updatedAt 100)` then
`(startedAt 90, updatedAt 110)`, the code's filter keeps the second session
(compared against the first session's `updatedAt = 100`, giving `20 > 10`)
while the claimed fixed-baseline filter keeps nothing (`20 > 110` fails). -/
theorem C3_counterexample :
    (filterActive 0 [⟨"A", "a", 1, 2, 0, 100⟩, ⟨"B", "b", 3, 4, 90, 110⟩]).2 =
      [⟨"B", "b", 3, 4, 90, 110⟩] ∧
    filterActive_spec 0 [⟨"A", "a", 1, 2, 0, 100⟩, ⟨"B", "b", 3, 4, 90, 110⟩] =
      [] := by
  norm_num [filterActive, filterActive_spec, List.filter]

/-- C3 (amended): the comparison baseline rolls forward during the poll — the
first session is compared against the pre-poll cursor and every later session
against its predecessor's `updatedAt` — and the cursor is advanced to each
examined session's `updatedAt` regardless of whether it qualifies, ending at
the last session's `updatedAt` (or unchanged when the list is empty). -/
theorem C3_filter_uses_rolling_baseline (c : ℚ) (ss : List SessionV0) :
    (filterActive c ss).2 = filterActive_rolling c ss ∧
    (filterActive c ss).1 = ss.foldl (fun _ s => s.updatedAt) c := by
  induction ss generalizing c with
  | nil => exact ⟨rfl, rfl⟩
  | cons s rest ih =>
    constructor
    · by_cases h : s.updatedAt - s.startedAt > s.updatedAt - c <;>
        simp [filterActive, filterActive_rolling, h, (ih s.updatedAt).1]
    · by_cases h : s.updatedAt - s.startedAt > s.updatedAt - c <;>
        simp [filterActive, h, (ih s.updatedAt).2]
